import Mathlib

/-!
Verification of the `python-fluctmatch` analysis layer.

We give a shallow embedding of the statistics and orchestration routines of
the repository: `AverageStructure` and `BondStats`
(`src/fluctmatch/fluctmatch/utils.py`), the trajectory-splitting helpers
`split_gmx` / `split_charmm` and the `splittraj` command
(`src/fluctmatch/commands/cmd_splittraj.py`), the thermodynamic table
aggregation (`src/fluctmatch/analysis/thermodynamics.py`), and the `diff` and
`table_convert` commands.

Modelling conventions:
* machine floats become exact rationals (`ℚ`); square roots, which are not
  rational-valued, are passed as an explicit function parameter;
* numpy arrays become lists, with elementwise access via `List.getD`;
* pandas dataframes produced by the aggregation loop become association
  lists of (column label, column values);
* the side effects of a routine (directory creation, file writes, external
  process calls, pool submissions) become an explicit trace of `Effect`s,
  in program order; raising an exception becomes an `Option String` error
  component carrying the message.
-/

namespace Fluctmatch

/-! ## Definitions -/

/-! ### Arrays and elementary statistics

`numpy` arrays of floats become `List ℚ`; stacking per-frame arrays gives a
`List (List α)` whose elementwise reductions (`np.mean`, `np.std` with
`axis=0`) are modelled below. -/

/-- Elementwise sum of two equal-length arrays (`numpy` array addition). -/
def addSeries {α : Type} [Add α] (a b : List α) : List α :=
  List.zipWith (· + ·) a b

/-- A single atom position: 3-D coordinates. -/
abbrev Vec3 : Type := ℚ × ℚ × ℚ

/-- One frame's position array: one 3-D coordinate per atom. -/
abbrev Frame : Type := List Vec3

/-- Divide a 3-D coordinate by a scalar, componentwise. -/
def vdiv (v : Vec3) (n : ℚ) : Vec3 := (v.1 / n, v.2.1 / n, v.2.2 / n)

/-- `np.mean(frames, axis=0)` on stacked position arrays: elementwise sum of
the arrays divided by their number.  Undefined (here: `[]`) on an empty
stack, where numpy would produce NaN. -/
def npMeanFrames (fs : List Frame) : Frame :=
  match fs with
  | [] => []
  | f :: rest => (rest.foldl addSeries f).map (fun v => vdiv v fs.length)

/-- `np.mean(xss, axis=0)` on stacked scalar arrays. -/
def npMeanQ (xss : List (List ℚ)) : List ℚ :=
  match xss with
  | [] => []
  | x :: rest => (rest.foldl addSeries x).map (fun v => v / (xss.length : ℚ))

/-- `np.std(xss, axis=0)` (population standard deviation, `ddof=0`): the
square root of the elementwise mean of the squared deviations from the
elementwise mean.  The square root, irrational in general, is the supplied
`sqrt` function. -/
def npStdQ (sqrt : ℚ → ℚ) (xss : List (List ℚ)) : List ℚ :=
  ((npMeanQ (xss.map (fun xs =>
    List.zipWith (fun x mu => (x - mu) ^ 2) xs (npMeanQ xss)))).map sqrt)

/-- The `_prepare`/`_single_frame` loop shared by `AverageStructure` and
`BondStats`: start from `result = []` and append each analysed frame's
array. -/
def collectAppend {α : Type} (l : List α) : List α :=
  l.foldl (fun acc f => acc ++ [f]) []

/-- Arithmetic mean of the `i`-th entries over the stacked arrays, written
directly as the spec phrases it ("the elementwise arithmetic mean, over the
analysed frames"). -/
def specMeanAt (xss : List (List ℚ)) (i : ℕ) : ℚ :=
  (xss.map (fun s => s.getD i 0)).sum / (xss.length : ℚ)

/-- Population variance of the `i`-th entries over the stacked arrays,
written directly as the spec phrases standard deviation (before the square
root). -/
def specVarAt (xss : List (List ℚ)) (i : ℕ) : ℚ :=
  (xss.map (fun s => (s.getD i 0 - specMeanAt xss i) ^ 2)).sum /
    (xss.length : ℚ)

/-! ### `AverageStructure` (utils.py lines 48–77)

`_prepare` sets `self.result = []`; `_single_frame` appends the atomgroup's
position array of the current analysed frame; `_conclude` replaces
`self.result` by `np.mean(self.result, axis=0)`.  The list of analysed
frames (as selected by `AnalysisBase.run` from start/stop/step) is the
input. -/

/-- `AverageStructure(atomgroup).run().result`. -/
def averageStructureRun (frames : List Frame) : Frame :=
  npMeanFrames (collectAppend frames)

/-! ### `BondStats` (utils.py lines 80–132)

The constructor dispatches on `func`; `_single_frame` appends the current
frame's bond-length array `self._ag.bonds.bonds()` (computed by MDAnalysis,
hence an input here); `_conclude` applies each stored statistic and packs
each resulting array into a table with columns `I`, `J`, `r_IJ`, where `I`
and `J` are the names of the two bonded atoms. -/

/-- The statistics a `BondStats` instance may apply. -/
inductive StatKind : Type
  | mean : StatKind
  | std : StatKind
deriving DecidableEq, Repr

/-- `BondStats.__init__`'s dispatch on `func`: the tuple `self._func`, or
the `AttributeError` message raised. -/
def bondStatsInit (func : String) : Except String (List StatKind) :=
  if func = "mean" then Except.ok [StatKind.mean]
  else if func = "std" then Except.ok [StatKind.std]
  else if func = "both" then Except.ok [StatKind.mean, StatKind.std]
  else Except.error "func must either be 'mean' or 'std'"

/-- Apply one stored statistic to the stacked bond-length arrays. -/
def applyStat (sqrt : ℚ → ℚ) (k : StatKind) (samples : List (List ℚ)) :
    List ℚ :=
  match k with
  | StatKind.mean => npMeanQ samples
  | StatKind.std => npStdQ sqrt samples

/-- One table of `BondStats.result`: columns `I`, `J`, `r_IJ`. -/
structure BondTable where
  I : List String
  J : List String
  r_IJ : List ℚ
deriving DecidableEq, Repr

/-- `BondStats(atomgroup, func).run().result`: `atom1` and `atom2` are
`self._ag.bonds.atom1.names` and `self._ag.bonds.atom2.names`; `samples`
holds the per-analysed-frame bond-length arrays. -/
def bondStatsRun (sqrt : ℚ → ℚ) (atom1 atom2 : List String) (func : String)
    (samples : List (List ℚ)) : Except String (List BondTable) :=
  (bondStatsInit func).map (fun funcs =>
    funcs.map (fun k =>
      BondTable.mk atom1 atom2 (applyStat sqrt k (collectAppend samples))))

/-! ### `splittraj` window generation (cmd_splittraj.py lines 220–226)

```
half_size = window_size // 2
beg = start - half_size if start >= window_size else start
values = zip(range(beg, stop + 1, half_size),
             range(beg + window_size - 1, stop + 1, half_size))
values = [((y // half_size) - 1, x, y) for x, y in values]
```

Python `//` on ints is floor division, which for positive divisors agrees
with `Int./` (Euclidean division); all divisors here are positive. -/

/-- Python `range(a, b, step)` for `step > 0`:
`max(0, ceil((b - a) / step))` elements `a, a + step, …`. -/
def pyRange (a b step : ℤ) : List ℤ :=
  (List.range ((b - a + step - 1) / step).toNat).map
    (fun (i : ℕ) => a + step * (i : ℤ))

/-- `half_size = window_size // 2`. -/
def halfSize (ws : ℤ) : ℤ := ws / 2

/-- `beg = start - half_size if start >= window_size else start`. -/
def windowBeg (start ws : ℤ) : ℤ :=
  if ws ≤ start then start - halfSize ws else start

/-- The labelled windows `[(y // half_size - 1, x, y), …]` computed by the
`splittraj` command. -/
def genWindows (start stop ws : ℤ) : List (ℤ × ℤ × ℤ) :=
  (List.zip (pyRange (windowBeg start ws) (stop + 1) (halfSize ws))
      (pyRange (windowBeg start ws + ws - 1) (stop + 1) (halfSize ws))).map
    (fun p => (p.2 / halfSize ws - 1, p.1, p.2))

/-! ### `split_gmx` / `split_charmm` (utils.py lines 239–321 and 324–386)
and the `splittraj` command (cmd_splittraj.py lines 155–244)

Each routine is modelled by its error outcome (`OSError` message, if
raised) together with the trace of side effects it performs, in program
order.  `mdutil.which(...) is None` becomes a boolean input. -/

/-- Side effects of the splitting routines. -/
inductive Effect : Type
  | makeDirs (p : String)
  | writeFile (p : String)
  | removeFile (p : String)
  | spawn (command : List String)
  | openLog (p : String)
  | submitPool (window : ℤ × ℤ × ℤ)
deriving DecidableEq, Repr

/-- Outcome of a splitting routine: the `OSError` message if one was
raised, and the effects performed before returning or raising. -/
structure SplitRun where
  error : Option String
  effects : List Effect
deriving DecidableEq, Repr

/-- `os.path.join` on two components. -/
def pathJoin (a b : String) : String := a ++ "/" ++ b

/-- The Gromacs command assembled by `split_gmx` (with or without an index
file). -/
def gmxCommand (topology trajectory : String) (index : Option String)
    (outPath : String) (start stop : ℤ) : List String :=
  match index with
  | some n => ["gmx", "-s", topology, "-f", trajectory, "-n", n,
      "-o", outPath, "-b", toString start, "-e", toString stop]
  | none => ["gmx", "trjconv", "-s", topology, "-f", trajectory,
      "-o", outPath, "-b", toString start, "-e", toString stop]

/-- `split_gmx(info, data_dir, **kwargs)`: raise `OSError` when `gmx` is
not on the path; otherwise create the subdirectory, write the temporary
selection file, open the log and run the command, then remove the
temporary file.  `tmpPath` is the OS-chosen `mkstemp` name. -/
def split_gmx (gmxFound : Bool) (info : ℤ × ℤ × ℤ) (data_dir : String)
    (topology trajectory : String) (index : Option String)
    (outfile logfile tmpPath : String) : SplitRun :=
  if gmxFound = false then
    { error := some ("Gromacs 5.0+ is required. " ++
        "If installed, please ensure that it is in your path."),
      effects := [] }
  else
    { error := none,
      effects :=
        [Effect.makeDirs (pathJoin data_dir (toString info.1)),
         Effect.writeFile tmpPath,
         Effect.writeFile
           (pathJoin (pathJoin data_dir (toString info.1)) logfile),
         Effect.spawn (gmxCommand topology trajectory index
           (pathJoin (pathJoin data_dir (toString info.1)) outfile)
           info.2.1 info.2.2),
         Effect.removeFile tmpPath] }

/-- `split_charmm(info, data_dir, **kwargs)`: raise `OSError` when
`charmm` is not on the path; otherwise create the subdirectory, write the
CHARMM input file, and run the command. -/
def split_charmm (charmmFound : Bool) (info : ℤ × ℤ × ℤ)
    (data_dir logfile : String) : SplitRun :=
  if charmmFound = false then
    { error := some ("CHARMM is required. If installed, " ++
        "please ensure that it is in your path."),
      effects := [] }
  else
    { error := none,
      effects :=
        [Effect.makeDirs (pathJoin data_dir (toString info.1)),
         Effect.writeFile
           (pathJoin (pathJoin data_dir (toString info.1)) "split.inp"),
         Effect.spawn ["charmm", "-i",
           pathJoin (pathJoin data_dir (toString info.1)) "split.inp",
           "-o", pathJoin (pathJoin data_dir (toString info.1)) logfile]] }

/-- The `splittraj` command body: configure logging (which opens the log
file), check for the selected program's binary and raise `OSError` if it is
missing, otherwise compute the windows and submit each one to the process
pool via `pool.map_async`. -/
def splittrajCli (program : String) (gmxFound charmmFound : Bool)
    (logfile : String) (start stop window_size : ℤ) : SplitRun :=
  if program = "GMX" ∧ gmxFound = false then
    { error := some ("Gromacs 5.0+ is required. If installed, please " ++
        "ensure that it is in your path."),
      effects := [Effect.openLog logfile] }
  else if program = "CHARMM" ∧ charmmFound = false then
    { error := some ("CHARMM is required. If installed, please ensure " ++
        "that it is in your path."),
      effects := [Effect.openLog logfile] }
  else
    { error := none,
      effects := Effect.openLog logfile ::
        (genWindows start stop window_size).map Effect.submitPool }

/-- Test for an external-process effect. -/
def isSpawn (e : Effect) : Bool :=
  match e with
  | Effect.spawn _ => true
  | _ => false

/-- Test for a pool-submission effect. -/
def isSubmit (e : Effect) : Bool :=
  match e with
  | Effect.submitPool _ => true
  | _ => false

/-! ### `create_thermo_tables` (thermodynamics.py lines 57–159)

The pool delivers a list of `(window, result)` pairs in an arbitrary
order; `window` is the subdirectory basename, a string.  Each result
table carries `Entropy`, `Enthalpy` and `Heatcap` series over the common
residue row index; the row index, identical across windows, is left
implicit and a series is its list of values.

Each loop iteration is written to concatenate the new window's one-column
frame onto each statistic's table (`pd.concat(..., axis=1)`), cast the
column labels to int, reindex the columns in ascending label order
(`entropy[np.sort(entropy.columns)]`), recompute
`gibbs = enthalpy - temperature * entropy`, and rewrite all four output
files.  However, the one-column frame is built by
`pd.DataFrame(result["Entropy"], columns=window)` with the *scalar*
window string as `columns`; pandas index construction rejects scalar
arguments with `TypeError: Index(...) must be called with a collection of
some kind`, so the first iteration raises before the concat, the
astype/reindex, the gibbs computation and every file write.  The stages
after the raise (`mergeCol`, `mergeStep`, `gibbsTable`,
`thermoStepWrites`) are modelled below as unreachable continuations. -/

/-- One window's thermodynamic series. -/
structure ThermoResult where
  entropy : List ℚ
  enthalpy : List ℚ
  heatcap : List ℚ
deriving DecidableEq, Repr

/-- A single-axis dataframe: columns in order, label ↦ series. -/
abbrev Table : Type := List (ℤ × List ℚ)

/-- Column-label order used by the ascending reindexing. -/
def keyLE (a b : ℤ × List ℚ) : Prop := a.1 ≤ b.1

instance : DecidableRel keyLE := fun a b => Int.decLe a.1 b.1

instance : IsTotal (ℤ × List ℚ) keyLE := ⟨fun a b => Int.le_total a.1 b.1⟩

instance : IsTrans (ℤ × List ℚ) keyLE :=
  ⟨fun _ _ _ hab hbc => le_trans hab hbc⟩

/-- The concat / astype / ascending-reindex stage of one statistic's
merge — the stage the code would run on a window's column had the
`pd.DataFrame(…, columns=window)` argument of the concat not raised
first (see `ensureIndex`). -/
def mergeCol (t : Table) (w : ℤ) (s : List ℚ) : Table :=
  List.insertionSort keyLE (t ++ [(w, s)])

/-- The three accumulating tables of the merge loop. -/
structure ThermoState where
  entropy : Table
  enthalpy : Table
  heat : Table
deriving DecidableEq, Repr

/-- The merge an iteration would perform on the three tables, were it
reached (it is not: index construction raises first). -/
def mergeStep (st : ThermoState) (r : ℤ × ThermoResult) : ThermoState :=
  { entropy := mergeCol st.entropy r.1 r.2.entropy,
    enthalpy := mergeCol st.enthalpy r.1 r.2.enthalpy,
    heat := mergeCol st.heat r.1 r.2.heatcap }

/-- The empty initial tables. -/
def initThermoState : ThermoState := ⟨[], [], []⟩

/-- `gibbs = enthalpy - (temperature * entropy)`: pandas aligns the two
frames on their column labels (in the loop both always carry the same
labels) and subtracts elementwise within each aligned column.  A label
missing from `entropy` would give a NaN column in pandas; that case cannot
arise in the loop and is modelled by an empty series. -/
def gibbsTable (temperature : ℚ) (enthalpy entropy : Table) : Table :=
  enthalpy.map (fun p =>
    (p.1, match entropy.lookup p.1 with
      | some s => List.zipWith (fun h e => h - temperature * e) p.2 s
      | none => []))

/-- The `to_csv` keyword arguments used by a table serialization. -/
structure CsvCfg where
  sep : String
  header : Bool
  index : Bool
  floatFormat : String
deriving DecidableEq, Repr

/-- The configuration every serialization in this codebase uses:
`sep=" "`, `header=True`, `index=True`, `float_format="%.4f"`. -/
def stdCfg : CsvCfg := ⟨" ", true, true, "%.4f"⟩

/-- The four file writes one merge iteration would perform (each with its
`to_csv` configuration), were the iteration reached; the fourth is the
`gibbs.txt` write of `enthalpy - temperature * entropy`. -/
def thermoStepWrites (outdir : String) (temperature : ℚ)
    (st : ThermoState) : List (String × CsvCfg × Table) :=
  [(pathJoin outdir "entropy.txt", stdCfg, st.entropy),
   (pathJoin outdir "enthalpy.txt", stdCfg, st.enthalpy),
   (pathJoin outdir "heat_capacity.txt", stdCfg, st.heat),
   (pathJoin outdir "gibbs.txt", stdCfg,
     gibbsTable temperature st.enthalpy st.entropy)]

/-- A `columns=` argument to `pd.DataFrame`: either a scalar label (a
Python `str` is scalar) or a collection of labels. -/
inductive PdColumns : Type
  | scalar (label : String) : PdColumns
  | labels (ls : List String) : PdColumns
deriving DecidableEq, Repr

/-- pandas index construction (`ensure_index` / `Index(...)`) applied to a
`columns=` argument: scalar arguments are rejected with `TypeError`. -/
def ensureIndex : PdColumns → Except String (List String)
  | PdColumns.scalar l => Except.error
      ("Index(...) must be called with a collection of some kind, '"
        ++ l ++ "' was passed")
  | PdColumns.labels ls => Except.ok ls

/-- One iteration of the merge loop as written (thermodynamics.py lines
96–115): each statistic's merge starts by building
`pd.DataFrame(result[...], columns=window)` with the scalar window
string, whose index construction raises; the entropy merge comes first,
so the iteration aborts there.  The continuation — casting the label to
int (`astype(np.int)`) and the three `mergeStep` merges — is reachable
only if all three constructions succeed, which never happens. -/
def mergeStepRun (st : ThermoState) (w : String) (r : ThermoResult) :
    Except String ThermoState := do
  let _ ← ensureIndex (PdColumns.scalar w)
  let _ ← ensureIndex (PdColumns.scalar w)
  let _ ← ensureIndex (PdColumns.scalar w)
  match w.toInt? with
  | some n => Except.ok (mergeStep st (n, r))
  | none => Except.error "invalid literal for int() with base 10"

/-- The merge loop of `create_thermo_tables` as written: windows are the
subdirectory basenames (strings).  Each iteration attempts the merge and,
were it to succeed, would rewrite the four output files; the `TypeError`
raised inside the first iteration propagates with no file written.
Returns the outcome and the write trace in program order. -/
def createThermoLoop (outdir : String) (temperature : ℚ)
    (st : ThermoState) :
    List (String × ThermoResult) →
      Except String ThermoState × List (String × CsvCfg × Table)
  | [] => (Except.ok st, [])
  | (w, r) :: rs =>
    match mergeStepRun st w r with
    | Except.error e => (Except.error e, [])
    | Except.ok st2 =>
        let done := createThermoLoop outdir temperature st2 rs
        (done.1, thermoStepWrites outdir temperature st2 ++ done.2)

/-- `create_thermo_tables(datadir, outdir, **kwargs)` after the pool has
delivered `results`: the temperature is `kwargs.get("temperature", 300.)`,
read on every iteration. -/
def createThermoTables (outdir : String) (temperature? : Option ℚ)
    (results : List (String × ThermoResult)) :
    Except String ThermoState × List (String × CsvCfg × Table) :=
  createThermoLoop outdir (temperature?.getD 300) initThermoState results

/-! ### The `diff` command (cmd_diff.py lines 78–129)

The command loads two `ParamTable`s with the same `ressep`, subtracts the
full coupling table directly and the `per_residue` / `interactions` views
with `fill_value=0.0`, and writes the three results. -/

/-- Modelled from the spec: the views of a loaded `ParamTable`
(`fluctmatch/analysis/paramtable.py` is absent from this source tree).
Per the spec the parameter-table algebra reduces per-bond data to
aggregate views; each view is a label ↦ value mapping with distinct
labels, held as an association list: `table` is the full coupling view,
`perResidue` and `interactions` the per-residue and residue-residue
views. -/
structure ParamTable (κ₁ κ₂ κ₃ : Type) where
  table : List (κ₁ × ℚ)
  perResidue : List (κ₂ × ℚ)
  interactions : List (κ₃ × ℚ)
deriving DecidableEq

/-- Modelled from the spec: `ParamTable.__sub__`
(`fluctmatch/analysis/paramtable.py` is absent from this source tree) —
the elementwise difference of two tables over their common index; the
`diff` command applies it to two tables of the same system read with the
same `ressep`, whose full views carry the same index. -/
def tableSub {κ : Type} [BEq κ] (t1 t2 : List (κ × ℚ)) : List (κ × ℚ) :=
  t1.filterMap (fun p => (t2.lookup p.1).map (fun v => (p.1, p.2 - v)))

/-- `DataFrame.subtract(other, fill_value=0.0)`: the result ranges over
the union of both label sets, a label missing from one side contributing
`0.0`. -/
def subFill0 {κ : Type} [BEq κ] (t1 t2 : List (κ × ℚ)) : List (κ × ℚ) :=
  t1.map (fun p => (p.1, p.2 - (t2.lookup p.1).getD 0))
    ++ (t2.filter (fun p => (t1.lookup p.1).isNone)).map
      (fun p => (p.1, 0 - p.2))

/-- The three writes of the `diff` command, in program order. -/
structure DiffOutput (κ₁ κ₂ κ₃ : Type) where
  dcoupling : String × CsvCfg × List (κ₁ × ℚ)
  dperres : String × CsvCfg × List (κ₂ × ℚ)
  dinteractions : String × CsvCfg × List (κ₃ × ℚ)

/-- The `diff` command body on the two loaded tables. -/
def diffCli {κ₁ κ₂ κ₃ : Type} [BEq κ₁] [BEq κ₂] [BEq κ₃]
    (outdir : String) (t1 t2 : ParamTable κ₁ κ₂ κ₃) :
    DiffOutput κ₁ κ₂ κ₃ :=
  { dcoupling := (pathJoin outdir "dcoupling.txt", stdCfg,
      tableSub t1.table t2.table),
    dperres := (pathJoin outdir "dperres.txt", stdCfg,
      subFill0 t1.perResidue t2.perResidue),
    dinteractions := (pathJoin outdir "dinteractions.txt", stdCfg,
      subFill0 t1.interactions t2.interactions) }

/-! ### `table_convert` (cmd_table_convert.py lines 92–175)

`convert = dict(zip(fluctmatch.atoms.names, cg.atoms.names))` maps each
fluctmatch bead name to the cg atom name zipped at the same position (a
Python dict keeps the last binding of a repeated key); the constants
table's `I` and `J` columns are mapped through it, residue names are
attached by `(segid, resnum)` lookup, and the renamed table is written. -/

/-- One row of the loaded constants table. -/
structure ConvRow where
  segidI : String
  resI : ℤ
  I : String
  segidJ : String
  resJ : ℤ
  J : String
  value : ℚ
deriving DecidableEq, Repr

/-- One row of the written table, after renaming `I`/`J` and adding
`resnI`/`resnJ` (index column order
`segidI resI resnI I segidJ resJ resnJ J`). -/
structure ConvOutRow where
  segidI : String
  resI : ℤ
  resnI : String
  I : String
  segidJ : String
  resJ : ℤ
  resnJ : String
  J : String
  value : ℚ
deriving DecidableEq, Repr

/-- `dict(zip(fluctmatch.atoms.names, cg.atoms.names))[x]`: lookup in the
reversed pair list, since a dict keeps the last binding; `none` models the
`KeyError`. -/
def convertName (fmNames cgNames : List String) (x : String) :
    Option String :=
  ((List.zip fmNames cgNames).reverse).lookup x

/-- `resnames.loc[(segid, res),]`: the cg universe's residue name for a
(segid, resnum) pair; `none` models the `KeyError`. -/
def lookupResn (residues : List ((String × ℤ) × String))
    (k : String × ℤ) : Option String :=
  residues.lookup k

/-- Convert one row: rename `I` and `J` through the dict and attach the
residue names. -/
def convertRow (fmNames cgNames : List String)
    (residues : List ((String × ℤ) × String)) (row : ConvRow) :
    Option ConvOutRow :=
  match convertName fmNames cgNames row.I,
      convertName fmNames cgNames row.J,
      lookupResn residues (row.segidI, row.resI),
      lookupResn residues (row.segidJ, row.resJ) with
  | some i, some j, some rI, some rJ =>
      some ⟨row.segidI, row.resI, rI, i, row.segidJ, row.resJ, rJ, j,
        row.value⟩
  | _, _, _, _ => none

/-- The `table_convert` command body after loading the two universes and
the constants table: rename every row, attach residue names, and write the
renamed table to the output file. -/
def tableConvertCli (outfile : String) (fmNames cgNames : List String)
    (residues : List ((String × ℤ) × String)) (rows : List ConvRow) :
    Option (String × CsvCfg × List ConvOutRow) :=
  (rows.mapM (convertRow fmNames cgNames residues)).map
    (fun out => (outfile, stdCfg, out))

/-- The row a successful conversion produces. -/
def outRowOf (fmNames cgNames : List String)
    (residues : List ((String × ℤ) × String)) (row : ConvRow) :
    ConvOutRow :=
  ⟨row.segidI, row.resI,
   (lookupResn residues (row.segidI, row.resI)).getD "",
   (convertName fmNames cgNames row.I).getD "",
   row.segidJ, row.resJ,
   (lookupResn residues (row.segidJ, row.resJ)).getD "",
   (convertName fmNames cgNames row.J).getD "", row.value⟩

/-- Default constants-table row. -/
def noRow : ConvRow := ⟨"", 0, "", "", 0, "", 0⟩

/-- Default output row. -/
def noOutRow : ConvOutRow := ⟨"", 0, "", "", "", 0, "", "", 0⟩

/-! ### The `"%.4f"` float format (used by every `to_csv` call)

`cmd_diff.py`, `thermodynamics.py` and `cmd_table_convert.py` all pass
`header=True`, `index=True`, `sep=" "`, `float_format="%.4f"` to
`to_csv`; `stdCfg` records these arguments at each modelled write site.
`"%.4f"` renders a float as sign, integer part, decimal point, and exactly
four fractional digits. -/

/-- The four fractional digits of `"%.4f"` (applied to values below
10000). -/
def frac4 (n : ℕ) : String :=
  String.mk [Nat.digitChar (n / 1000 % 10), Nat.digitChar (n / 100 % 10),
    Nat.digitChar (n / 10 % 10), Nat.digitChar (n % 10)]

/-- The magnitude of a rational in 1/10000ths, rounded to nearest (half
away from zero; the C library rounds the underlying binary double to
even, which differs only on exact ties of the decimal scaling). -/
def scaled4 (q : ℚ) : ℕ := (Int.floor (|q| * 10000 + 1 / 2)).toNat

/-- `"%.4f" % q`: sign, integer part, decimal point, four digits. -/
def format4 (q : ℚ) : String :=
  (if q < 0 then "-" else "") ++ toString (scaled4 q / 10000) ++ "." ++
    frac4 (scaled4 q % 10000)

/-! ### Concrete sample data for witnesses -/

/-- Two frames of two atoms each. -/
def sampleFrames : List Frame :=
  [[(1, 2, 3), (4, 5, 6)], [(3, 4, 5), (8, 9, 10)]]

/-- A loaded parameter table for witnesses. -/
def sampleParam1 : ParamTable String String String :=
  ⟨[("ab", 5)], [("r1", 3), ("r2", 4)], [("pq", 2)]⟩

/-- A second loaded parameter table for witnesses. -/
def sampleParam2 : ParamTable String String String :=
  ⟨[("ab", 2)], [("r1", 1), ("r3", 7)], [("rs", 1)]⟩

/-- Bead names of a small fluctmatch universe. -/
def sampleFmNames : List String := ["F1", "F2"]

/-- Atom names of the matching cg universe. -/
def sampleCgNames : List String := ["A1", "A2"]

/-- Residue records of the cg universe. -/
def sampleResidues : List ((String × ℤ) × String) :=
  [(("S", 1), "ALA"), (("S", 2), "GLY")]

/-- A constants table with one row. -/
def sampleConvRows : List ConvRow := [⟨"S", 1, "F1", "S", 2, "F2", 5⟩]

/-- Two frames of two bond lengths each. -/
def sampleBondSamples : List (List ℚ) := [[1, 3], [3, 7]]

/-- Names of the first atoms of the two bonds. -/
def sampleAtom1 : List String := ["N", "CA"]

/-- Names of the second atoms of the two bonds. -/
def sampleAtom2 : List String := ["CA", "CB"]

/-! ## Theorems -/

/-! ### Generic list lemmas -/

/-- `getD` of a `zipWith` at an index inside both lists. -/
theorem getD_zipWith {α : Type} (f : α → α → α) (d : α) (a b : List α)
    (i : ℕ) (ha : i < a.length) (hb : i < b.length) :
    (List.zipWith f a b).getD i d = f (a.getD i d) (b.getD i d) := by
  induction a generalizing b i with
  | nil => simp at ha
  | cons x xs ih =>
    cases b with
    | nil => simp at hb
    | cons y ys =>
      cases i with
      | zero => simp [List.getD]
      | succ n =>
        simp only [List.zipWith_cons_cons, List.getD_cons_succ]
        exact ih ys n (by simpa using ha) (by simpa using hb)

/-- `getD` of a `map` at an index inside the list. -/
theorem getD_map {α β : Type} (g : α → β) (d : β) (e : α) (l : List α)
    (i : ℕ) (h : i < l.length) :
    (l.map g).getD i d = g (l.getD i e) := by
  induction l generalizing i with
  | nil => simp at h
  | cons x xs ih =>
    cases i with
    | zero => simp [List.getD]
    | succ n =>
      simp only [List.map_cons, List.getD_cons_succ]
      exact ih n (by simpa using h)

theorem collectAppend_eq {α : Type} (l : List α) : collectAppend l = l := by
  have h : ∀ acc : List α,
      l.foldl (fun acc f => acc ++ [f]) acc = acc ++ l := by
    induction l with
    | nil => intro acc; simp
    | cons f fs ih => intro acc; simp [List.foldl_cons, ih]
  simpa [collectAppend] using h []

theorem addSeries_length {α : Type} [Add α] (a b : List α) :
    (addSeries a b).length = min a.length b.length := by
  simp [addSeries]

/-- Folding elementwise addition over equal-length arrays accumulates the
elementwise sum. -/
theorem foldl_addSeries_getD {α : Type} [AddCommMonoid α] (n : ℕ)
    (rest : List (List α)) :
    ∀ f : List α, f.length = n → (∀ g ∈ rest, g.length = n) →
    ∀ i : ℕ, i < n →
    (rest.foldl addSeries f).getD i 0 =
      f.getD i 0 + (rest.map (fun g => g.getD i 0)).sum := by
  induction rest with
  | nil => intro f _ _ i _; simp
  | cons g gs ih =>
    intro f hf hmem i hi
    have hg : g.length = n := hmem g (by simp)
    have hfg : (addSeries f g).length = n := by
      rw [addSeries_length, hf, hg]; simp
    have hrec := ih (addSeries f g) hfg
      (fun x hx => hmem x (by simp [hx])) i hi
    have hz : (addSeries f g).getD i 0 = f.getD i 0 + g.getD i 0 := by
      unfold addSeries
      exact getD_zipWith (· + ·) 0 f g i (hf ▸ hi) (hg ▸ hi)
    simp only [List.foldl_cons] at *
    rw [hrec, hz]
    simp [add_assoc]

/-- Folding elementwise addition over equal-length arrays preserves the
length. -/
theorem foldl_addSeries_length {α : Type} [Add α] (n : ℕ)
    (rest : List (List α)) :
    ∀ f : List α, f.length = n → (∀ g ∈ rest, g.length = n) →
    (rest.foldl addSeries f).length = n := by
  induction rest with
  | nil => intro f hf _; simpa using hf
  | cons g gs ih =>
    intro f hf hmem
    have hg : g.length = n := hmem g (by simp)
    have hfg : (addSeries f g).length = n := by
      rw [addSeries_length, hf, hg]; simp
    simpa using ih (addSeries f g) hfg (fun x hx => hmem x (by simp [hx]))

theorem npMeanQ_length (xss : List (List ℚ)) (n : ℕ)
    (hne : xss ≠ []) (hlen : ∀ s ∈ xss, s.length = n) :
    (npMeanQ xss).length = n := by
  match xss, hne with
  | x :: rest, _ =>
    unfold npMeanQ
    simp only [List.length_map]
    exact foldl_addSeries_length n rest x (hlen x (by simp))
      (fun g hg => hlen g (by simp [hg]))

theorem npMeanQ_getD (xss : List (List ℚ)) (n : ℕ)
    (hne : xss ≠ []) (hlen : ∀ s ∈ xss, s.length = n)
    (i : ℕ) (hi : i < n) :
    (npMeanQ xss).getD i 0 = specMeanAt xss i := by
  match xss, hne with
  | x :: rest, _ =>
    have hx : x.length = n := hlen x (by simp)
    have hrest : ∀ g ∈ rest, g.length = n := fun g hg => hlen g (by simp [hg])
    have hlenfold : (rest.foldl addSeries x).length = n :=
      foldl_addSeries_length n rest x hx hrest
    unfold npMeanQ
    rw [getD_map (fun v => v / ((x :: rest).length : ℚ)) 0 0
      (rest.foldl addSeries x) i (by rw [hlenfold]; exact hi)]
    rw [foldl_addSeries_getD n rest x hx hrest i hi]
    simp [specMeanAt]

theorem npStdQ_getD (sqrt : ℚ → ℚ) (xss : List (List ℚ)) (n : ℕ)
    (hne : xss ≠ []) (hlen : ∀ s ∈ xss, s.length = n)
    (i : ℕ) (hi : i < n) :
    (npStdQ sqrt xss).getD i 0 = sqrt (specVarAt xss i) := by
  have hm : (npMeanQ xss).length = n := npMeanQ_length xss n hne hlen
  have hdevlen : ∀ d ∈ xss.map (fun xs =>
      List.zipWith (fun x mu => (x - mu) ^ 2) xs (npMeanQ xss)),
      d.length = n := by
    intro d hd
    rcases List.mem_map.mp hd with ⟨s, hs, rfl⟩
    rw [List.length_zipWith, hlen s hs, hm]
    simp
  have hdevne : xss.map (fun xs =>
      List.zipWith (fun x mu => (x - mu) ^ 2) xs (npMeanQ xss)) ≠ [] := by
    simpa using hne
  have hmean := npMeanQ_getD _ n hdevne hdevlen i hi
  have hmaplen := npMeanQ_length _ n hdevne hdevlen
  unfold npStdQ
  rw [getD_map sqrt 0 0 _ i (by rw [hmaplen]; exact hi), hmean]
  congr 1
  unfold specMeanAt specVarAt
  congr 1
  · rw [List.map_map]
    congr 1
    apply List.map_congr_left
    intro s hs
    have h1 : i < s.length := by rw [hlen s hs]; exact hi
    have h2 : i < (npMeanQ xss).length := by rw [hm]; exact hi
    simp only [Function.comp]
    rw [getD_zipWith (fun x mu => (x - mu) ^ 2) 0 s (npMeanQ xss) i h1 h2]
    rw [npMeanQ_getD xss n hne hlen i hi]
  · simp

/-! ### C1: `AverageStructure` computes the elementwise mean -/

/-- **C1.** For every trajectory in which at least one frame is analysed,
`AverageStructure(atomgroup).run().result` is the elementwise arithmetic
mean of the atomgroup's position arrays over the analysed frames: at every
atom index `i`, the result holds the sum of the analysed frames' `i`-th
coordinates divided by the number of analysed frames (one averaged 3-D
coordinate per atom). -/
theorem averageStructure_result_is_mean (frames : List Frame) (n : ℕ)
    (hne : frames ≠ []) (hlen : ∀ f ∈ frames, f.length = n)
    (i : ℕ) (hi : i < n) :
    (averageStructureRun frames).getD i 0 =
      vdiv ((frames.map (fun f => f.getD i 0)).sum) frames.length := by
  unfold averageStructureRun
  rw [collectAppend_eq]
  match frames, hne with
  | f :: rest, _ =>
    have hf : f.length = n := hlen f (by simp)
    have hrest : ∀ g ∈ rest, g.length = n := fun g hg => hlen g (by simp [hg])
    have hfold := foldl_addSeries_getD n rest f hf hrest i hi
    have hfoldlen : (rest.foldl addSeries f).length = n :=
      foldl_addSeries_length n rest f hf hrest
    unfold npMeanFrames
    rw [getD_map (fun v => vdiv v (f :: rest).length) 0 0
      (rest.foldl addSeries f) i (by rw [hfoldlen]; exact hi)]
    rw [hfold]
    simp [vdiv]

/-- Witness for C1 at a concrete two-frame, two-atom trajectory. -/
theorem averageStructure_result_is_mean_witness :
    sampleFrames ≠ [] ∧ (∀ f ∈ sampleFrames, f.length = 2) ∧ 0 < 2 ∧
    (averageStructureRun sampleFrames).getD 0 0 =
      vdiv ((sampleFrames.map (fun f => f.getD 0 0)).sum)
        sampleFrames.length :=
  ⟨by decide, by decide, by decide,
   averageStructure_result_is_mean sampleFrames 2 (by decide) (by decide) 0
     (by decide)⟩

/-! ### C2: `BondStats` produces mean / std tables -/

/-- **C2.** For every trajectory with at least one analysed frame,
`BondStats(atomgroup, func).run().result` is a list of per-bond tables with
columns `I`, `J`, `r_IJ` (the names of the two bonded atoms and the
statistic): with `func="mean"` one table whose `r_IJ` is the per-bond mean
of the bond lengths over the analysed frames; with `func="std"` one table
whose `r_IJ` is the per-bond (population) standard deviation; with
`func="both"` the two tables in the order mean then standard deviation. -/
theorem bondStatsRun_tables (sqrt : ℚ → ℚ) (atom1 atom2 : List String)
    (samples : List (List ℚ)) (n : ℕ)
    (hne : samples ≠ []) (hlen : ∀ s ∈ samples, s.length = n) :
    (bondStatsRun sqrt atom1 atom2 "mean" samples =
        Except.ok [BondTable.mk atom1 atom2 (npMeanQ samples)]
      ∧ ∀ i, i < n → (npMeanQ samples).getD i 0 = specMeanAt samples i)
    ∧ (bondStatsRun sqrt atom1 atom2 "std" samples =
        Except.ok [BondTable.mk atom1 atom2 (npStdQ sqrt samples)]
      ∧ ∀ i, i < n →
          (npStdQ sqrt samples).getD i 0 = sqrt (specVarAt samples i))
    ∧ bondStatsRun sqrt atom1 atom2 "both" samples =
        Except.ok [BondTable.mk atom1 atom2 (npMeanQ samples),
          BondTable.mk atom1 atom2 (npStdQ sqrt samples)] := by
  refine ⟨⟨?_, ?_⟩, ⟨?_, ?_⟩, ?_⟩
  · simp [bondStatsRun, bondStatsInit, collectAppend_eq, applyStat, Except.map]
  · intro i hi; exact npMeanQ_getD samples n hne hlen i hi
  · simp [bondStatsRun, bondStatsInit, collectAppend_eq, applyStat, Except.map]
  · intro i hi; exact npStdQ_getD sqrt samples n hne hlen i hi
  · simp [bondStatsRun, bondStatsInit, collectAppend_eq, applyStat, Except.map]

/-- Witness for C2 at two frames of two bonds, with `sqrt := id`. -/
theorem bondStatsRun_tables_witness :
    sampleBondSamples ≠ [] ∧ (∀ s ∈ sampleBondSamples, s.length = 2) ∧
    ((bondStatsRun id sampleAtom1 sampleAtom2 "mean" sampleBondSamples =
        Except.ok [BondTable.mk sampleAtom1 sampleAtom2
          (npMeanQ sampleBondSamples)]
      ∧ ∀ i, i < 2 →
          (npMeanQ sampleBondSamples).getD i 0 =
            specMeanAt sampleBondSamples i)
    ∧ (bondStatsRun id sampleAtom1 sampleAtom2 "std" sampleBondSamples =
        Except.ok [BondTable.mk sampleAtom1 sampleAtom2
          (npStdQ id sampleBondSamples)]
      ∧ ∀ i, i < 2 →
          (npStdQ id sampleBondSamples).getD i 0 =
            id (specVarAt sampleBondSamples i))
    ∧ bondStatsRun id sampleAtom1 sampleAtom2 "both" sampleBondSamples =
        Except.ok [BondTable.mk sampleAtom1 sampleAtom2
          (npMeanQ sampleBondSamples),
          BondTable.mk sampleAtom1 sampleAtom2
            (npStdQ id sampleBondSamples)]) :=
  ⟨by decide, by decide,
   bondStatsRun_tables id sampleAtom1 sampleAtom2 sampleBondSamples 2
     (by decide) (by decide)⟩

/-! ### C10: `BondStats.__init__` error behaviour -/

/-- **C10.** `BondStats.__init__` raises exactly when `func` is none of
`"mean"`, `"std"`, `"both"`; construction with `"both"` succeeds (storing
mean then std), even though the error message raised for bad values names
only `'mean'` and `'std'` as permitted. -/
theorem bondStatsInit_error_iff (func : String) :
    ((∃ msg, bondStatsInit func = Except.error msg) ↔
      func ≠ "mean" ∧ func ≠ "std" ∧ func ≠ "both")
    ∧ bondStatsInit "both" = Except.ok [StatKind.mean, StatKind.std]
    ∧ ∀ msg, bondStatsInit func = Except.error msg →
        msg = "func must either be 'mean' or 'std'" := by
  refine ⟨?_, by simp [bondStatsInit], ?_⟩
  · constructor
    · rintro ⟨msg, hmsg⟩
      by_cases h1 : func = "mean" <;> by_cases h2 : func = "std" <;>
        by_cases h3 : func = "both" <;>
        simp [bondStatsInit, h1, h2, h3] at hmsg ⊢
    · rintro ⟨h1, h2, h3⟩
      exact ⟨"func must either be 'mean' or 'std'",
        by simp [bondStatsInit, h1, h2, h3]⟩
  · intro msg hmsg
    by_cases h1 : func = "mean"
    · simp [bondStatsInit, h1] at hmsg
    · by_cases h2 : func = "std"
      · simp [bondStatsInit, h1, h2] at hmsg
      · by_cases h3 : func = "both"
        · simp [bondStatsInit, h1, h2, h3] at hmsg
        · simp [bondStatsInit, h1, h2, h3] at hmsg
          exact hmsg.symm

/-! ### C8: the `splittraj` window list -/

/-- `getD` of a `zip` at an index inside both lists. -/
theorem getD_zip {α β : Type} (a : List α) (b : List β) (da : α) (db : β)
    (i : ℕ) (ha : i < a.length) (hb : i < b.length) :
    (List.zip a b).getD i (da, db) = (a.getD i da, b.getD i db) := by
  induction a generalizing b i with
  | nil => simp at ha
  | cons x xs ih =>
    cases b with
    | nil => simp at hb
    | cons y ys =>
      cases i with
      | zero => simp [List.getD]
      | succ n =>
        simp only [List.zip_cons_cons, List.getD_cons_succ]
        exact ih ys n (by simpa using ha) (by simpa using hb)

theorem pyRange_length (a b s : ℤ) :
    (pyRange a b s).length = ((b - a + s - 1) / s).toNat := by
  simp [pyRange]

theorem pyRange_getD (a b s : ℤ) (i : ℕ)
    (hi : i < (pyRange a b s).length) :
    (pyRange a b s).getD i 0 = a + s * (i : ℤ) := by
  unfold pyRange at *
  simp only [List.length_map, List.length_range] at hi
  rw [getD_map (fun k : ℕ => a + s * (k : ℤ)) 0 0 _ i (by simpa using hi)]
  congr 2
  rw [List.getD_eq_getElem _ _ (by simpa using hi), List.getElem_range]

/-- Every element of `pyRange a b s` (with `s > 0`) is below `b`. -/
theorem pyRange_getD_lt (a b s : ℤ) (hs : 0 < s) (i : ℕ)
    (hi : i < (pyRange a b s).length) :
    a + s * (i : ℤ) < b := by
  rw [pyRange_length] at hi
  have h1 : (i : ℤ) < (b - a + s - 1) / s := by omega
  have h2 : ((i : ℤ) + 1) * s ≤ b - a + s - 1 :=
    (Int.le_ediv_iff_mul_le hs).mp h1
  have h3 : ((i : ℤ) + 1) * s = s * (i : ℤ) + s := by ring
  omega

/-- Positional closed form of the window list. -/
theorem genWindows_getD (start stop ws : ℤ) (i : ℕ)
    (hi : i < (genWindows start stop ws).length) :
    (genWindows start stop ws).getD i (0, 0, 0) =
      ((windowBeg start ws + ws - 1 + halfSize ws * (i : ℤ)) / halfSize ws
          - 1,
       windowBeg start ws + halfSize ws * (i : ℤ),
       windowBeg start ws + ws - 1 + halfSize ws * (i : ℤ)) := by
  unfold genWindows at *
  simp only [List.length_map, List.length_zip, lt_min_iff] at hi
  obtain ⟨h1, h2⟩ := hi
  rw [getD_map (fun p : ℤ × ℤ => (p.2 / halfSize ws - 1, p.1, p.2))
    (0, 0, 0) (0, 0) _ i (by simp [List.length_zip]; exact ⟨h1, h2⟩)]
  rw [getD_zip _ _ 0 0 i h1 h2, pyRange_getD _ _ _ i h1,
    pyRange_getD _ _ _ i h2]

theorem genWindows_length_le (start stop ws : ℤ) :
    (genWindows start stop ws).length ≤
      (pyRange (windowBeg start ws + ws - 1) (stop + 1)
        (halfSize ws)).length := by
  unfold genWindows
  simp [List.length_zip]

theorem halfSize_pos (ws : ℤ) (hw : 2 ≤ ws) : 0 < halfSize ws := by
  have : (1 : ℤ) ≤ ws / 2 := (Int.le_ediv_iff_mul_le (by norm_num)).mpr
    (by linarith)
  unfold halfSize
  omega

/-- **C8.** For every `start ≥ 1`, `stop ≥ 1`, `window_size ≥ 2` accepted by
the `splittraj` command, the generated labelled windows `(idx, x, y)`
satisfy: `y - x = window_size - 1` and `y ≤ stop` for every window, with
label `idx = y // (window_size // 2) - 1`; consecutive window starts differ
by exactly `window_size // 2`; and when at least one window exists, the
first start is `start - window_size // 2` if `start ≥ window_size` and
`start` otherwise. -/
theorem genWindows_spec (start stop ws : ℤ)
    (hs : 1 ≤ start) (hp : 1 ≤ stop) (hw : 2 ≤ ws) :
    (∀ w ∈ genWindows start stop ws,
      w.2.2 - w.2.1 = ws - 1 ∧ w.2.2 ≤ stop ∧ w.1 = w.2.2 / (ws / 2) - 1)
    ∧ (∀ i : ℕ, i + 1 < (genWindows start stop ws).length →
        ((genWindows start stop ws).getD (i + 1) (0, 0, 0)).2.1 -
          ((genWindows start stop ws).getD i (0, 0, 0)).2.1 = ws / 2)
    ∧ (genWindows start stop ws ≠ [] →
        ((genWindows start stop ws).getD 0 (0, 0, 0)).2.1 =
          if ws ≤ start then start - ws / 2 else start) := by
  have hhalf : 0 < halfSize ws := halfSize_pos ws hw
  refine ⟨?_, ?_, ?_⟩
  · intro w hwmem
    rcases List.mem_iff_getElem.mp hwmem with ⟨i, hilen, hget⟩
    have hform := genWindows_getD start stop ws i hilen
    rw [List.getD_eq_getElem _ _ hilen, hget] at hform
    have hys : i < (pyRange (windowBeg start ws + ws - 1) (stop + 1)
        (halfSize ws)).length :=
      lt_of_lt_of_le hilen (genWindows_length_le start stop ws)
    have hlt := pyRange_getD_lt (windowBeg start ws + ws - 1) (stop + 1)
      (halfSize ws) hhalf i hys
    have h21 : w.2.1 = windowBeg start ws + halfSize ws * (i : ℤ) := by
      rw [hform]
    have h22 : w.2.2 =
        windowBeg start ws + ws - 1 + halfSize ws * (i : ℤ) := by
      rw [hform]
    have h1f : w.1 =
        (windowBeg start ws + ws - 1 + halfSize ws * (i : ℤ)) /
          halfSize ws - 1 := by
      rw [hform]
    refine ⟨by rw [h21, h22]; ring, by rw [h22]; omega, ?_⟩
    rw [h1f, h22]
    rfl
  · intro i hi1
    have hi0 : i < (genWindows start stop ws).length := by omega
    rw [genWindows_getD start stop ws (i + 1) hi1,
      genWindows_getD start stop ws i hi0]
    simp only [halfSize]
    push_cast
    ring
  · intro hne
    have h0 : 0 < (genWindows start stop ws).length :=
      List.length_pos.mpr hne
    rw [genWindows_getD start stop ws 0 h0]
    simp [windowBeg, halfSize]

/-- Witness for C8 at `start = 1`, `stop = 10`, `window_size = 4` (four
windows `(1,4), (3,6), (5,8), (7,10)`). -/
theorem genWindows_spec_witness :
    (1 : ℤ) ≤ 1 ∧ (1 : ℤ) ≤ 10 ∧ (2 : ℤ) ≤ 4 ∧
    ((∀ w ∈ genWindows 1 10 4,
      w.2.2 - w.2.1 = 4 - 1 ∧ w.2.2 ≤ 10 ∧ w.1 = w.2.2 / (4 / 2) - 1)
    ∧ (∀ i : ℕ, i + 1 < (genWindows 1 10 4).length →
        ((genWindows 1 10 4).getD (i + 1) (0, 0, 0)).2.1 -
          ((genWindows 1 10 4).getD i (0, 0, 0)).2.1 = 4 / 2)
    ∧ (genWindows 1 10 4 ≠ [] →
        ((genWindows 1 10 4).getD 0 (0, 0, 0)).2.1 =
          if (4 : ℤ) ≤ 1 then 1 - 4 / 2 else 1)) :=
  ⟨by decide, by decide, by decide,
   genWindows_spec 1 10 4 (by decide) (by decide) (by decide)⟩

/-! ### C3: missing binaries raise `OSError` before any side effect -/

/-- **C3.** When the external binary is not found, `split_gmx`
(resp. `split_charmm`) raises `OSError` with an empty effect trace — no
subdirectory created, no file written, no subprocess started; likewise the
`splittraj` command raises `OSError` for the selected program before
submitting any work to the pool.  There is no retry or other failure
handling: on success each split routine starts its subprocess exactly once,
and the command submits each generated window to the pool exactly once, in
order. -/
theorem split_missing_binary (info : ℤ × ℤ × ℤ)
    (data_dir topology trajectory outfile logfile tmpPath : String)
    (index : Option String) (start stop window_size : ℤ) :
    ((split_gmx false info data_dir topology trajectory index outfile
        logfile tmpPath).error ≠ none
      ∧ (split_gmx false info data_dir topology trajectory index outfile
        logfile tmpPath).effects = [])
    ∧ ((split_charmm false info data_dir logfile).error ≠ none
      ∧ (split_charmm false info data_dir logfile).effects = [])
    ∧ ((splittrajCli "GMX" false true logfile start stop
        window_size).error ≠ none
      ∧ ∀ e ∈ (splittrajCli "GMX" false true logfile start stop
          window_size).effects, isSubmit e = false ∧ isSpawn e = false)
    ∧ ((splittrajCli "CHARMM" true false logfile start stop
        window_size).error ≠ none
      ∧ ∀ e ∈ (splittrajCli "CHARMM" true false logfile start stop
          window_size).effects, isSubmit e = false ∧ isSpawn e = false)
    ∧ ((split_gmx true info data_dir topology trajectory index outfile
        logfile tmpPath).effects.countP isSpawn = 1
      ∧ (split_charmm true info data_dir logfile).effects.countP
          isSpawn = 1)
    ∧ (∀ g c : Bool, ¬(g = false ∧ c = false) →
        ∃ p, (splittrajCli (if g then "GMX" else "CHARMM") g c logfile
            start stop window_size).effects =
          Effect.openLog p ::
            (genWindows start stop window_size).map Effect.submitPool) := by
  refine ⟨⟨?_, ?_⟩, ⟨?_, ?_⟩, ⟨?_, ?_⟩, ⟨?_, ?_⟩, ⟨?_, ?_⟩, ?_⟩
  · simp [split_gmx]
  · simp [split_gmx]
  · simp [split_charmm]
  · simp [split_charmm]
  · simp [splittrajCli]
  · intro e he
    simp [splittrajCli] at he
    simp [he, isSubmit, isSpawn]
  · simp [splittrajCli]
  · intro e he
    simp [splittrajCli] at he
    simp [he, isSubmit, isSpawn]
  · simp [split_gmx, List.countP, List.countP.go, isSpawn]
  · simp [split_charmm, List.countP, List.countP.go, isSpawn]
  · intro g c hgc
    cases g with
    | false =>
      cases c with
      | false => exact absurd ⟨rfl, rfl⟩ hgc
      | true => exact ⟨logfile, by simp [splittrajCli]⟩
    | true => exact ⟨logfile, by simp [splittrajCli]⟩

/-! ### C4 / C9: the thermodynamic merge loop raises before merging -/

/-- The merge iteration always raises: the scalar window string passed as
`columns=` fails pandas index construction. -/
theorem mergeStepRun_error (st : ThermoState) (w : String)
    (r : ThermoResult) :
    mergeStepRun st w r = Except.error
      ("Index(...) must be called with a collection of some kind, '"
        ++ w ++ "' was passed") := rfl

/-- No iteration of the merge loop ever writes a file: the first
iteration's `TypeError` aborts the loop with an empty write trace. -/
theorem createThermoLoop_writes_nil (outdir : String) (T : ℚ)
    (rs : List (String × ThermoResult)) :
    ∀ st : ThermoState, (createThermoLoop outdir T st rs).2 = [] := by
  induction rs with
  | nil => intro st; rfl
  | cons p rs ih =>
    intro st
    simp [createThermoLoop, mergeStepRun_error]

/-- **C4** (code bug).  The claimed alignment never occurs: on the first
delivered result, the merge loop builds
`pd.DataFrame(result["Entropy"], columns=window)` with the scalar window
string as `columns`, whose pandas index construction raises `TypeError`,
so `create_thermo_tables` aborts with no table merged and no file
written, whatever the delivery order. -/
theorem thermo_merge_raises (outdir : String) (t? : Option ℚ)
    (w : String) (r : ThermoResult)
    (rs : List (String × ThermoResult)) :
    (createThermoTables outdir t? ((w, r) :: rs)).1 =
      Except.error
        ("Index(...) must be called with a collection of some kind, '"
          ++ w ++ "' was passed")
    ∧ (createThermoTables outdir t? ((w, r) :: rs)).2 = [] := by
  constructor
  · simp [createThermoTables, createThermoLoop, mergeStepRun_error]
  · exact createThermoLoop_writes_nil outdir _ ((w, r) :: rs)
      initThermoState


/-- In an association list with distinct keys, `lookup` finds any member
pair. -/
theorem lookup_eq_of_mem_nodup {α β : Type} [BEq α] [LawfulBEq α]
    (t : List (α × β)) (w : α)
    (s : β) (hnd : (t.map Prod.fst).Nodup) (hmem : (w, s) ∈ t) :
    t.lookup w = some s := by
  induction t with
  | nil => simp at hmem
  | cons p ps ih =>
    simp only [List.map_cons, List.nodup_cons] at hnd
    rcases List.mem_cons.mp hmem with heq | hmem2
    · rw [← heq]
      simp [List.lookup]
    · have hw : ¬(w = p.1) := by
        intro h
        exact hnd.1 (h ▸ List.mem_map.mpr ⟨(w, s), hmem2, rfl⟩)
      have hbeq : (w == p.1) = false := by
        simpa using hw
      simp only [List.lookup, hbeq]
      exact ih hnd.2 hmem2

/-- **C9** (code bug).  `gibbs.txt` is never written: the `TypeError` at
the first merge aborts `create_thermo_tables` before any write, so the
write trace is empty — in particular it never contains a `gibbs.txt`
write.  The write the loop body would perform each iteration, were it
reached, is the fourth of `thermoStepWrites`: `gibbs.txt` with
`enthalpy - temperature * entropy` (`gibbsTable`), `temperature` being the
caller-supplied keyword value with default `300.0`. -/
theorem thermo_gibbs_never_written (outdir : String) (t? : Option ℚ)
    (results : List (String × ThermoResult)) (st : ThermoState) :
    (createThermoTables outdir t? results).2 = []
    ∧ (thermoStepWrites outdir (t?.getD 300) st).getD 3
        ("", stdCfg, []) =
      (pathJoin outdir "gibbs.txt", stdCfg,
        gibbsTable (t?.getD 300) st.enthalpy st.entropy)
    ∧ ((none : Option ℚ).getD 300 = 300) :=
  ⟨createThermoLoop_writes_nil outdir _ results initThermoState,
   rfl, rfl⟩


/-! ### C5: the `diff` command -/

/-- **C5.** For every pair of parameter tables read with the same
`ressep`, the `diff` command computes the elementwise difference
`table_1 - table_2` of the full coupling view, and subtracts the
per-residue and residue-residue views with missing entries treated as
`0.0` — an entry present in only one table appears in the difference as
plus or minus its value; the three results are written to
`dcoupling.txt`, `dperres.txt` and `dinteractions.txt` in the output
directory. -/
theorem diffCli_spec {κ₁ κ₂ κ₃ : Type}
    [BEq κ₁] [LawfulBEq κ₁] [BEq κ₂] [LawfulBEq κ₂] [BEq κ₃] [LawfulBEq κ₃]
    (outdir : String) (t1 t2 : ParamTable κ₁ κ₂ κ₃)
    (hnd2 : (t2.perResidue.map Prod.fst).Nodup)
    (hnd3 : (t2.interactions.map Prod.fst).Nodup) :
    ((diffCli outdir t1 t2).dcoupling.1 = pathJoin outdir "dcoupling.txt"
      ∧ (diffCli outdir t1 t2).dperres.1 = pathJoin outdir "dperres.txt"
      ∧ (diffCli outdir t1 t2).dinteractions.1 =
          pathJoin outdir "dinteractions.txt")
    ∧ (∀ k v1 v2, (k, v1) ∈ t1.table → t2.table.lookup k = some v2 →
        (k, v1 - v2) ∈ (diffCli outdir t1 t2).dcoupling.2.2)
    ∧ ((∀ k v1 v2, (k, v1) ∈ t1.perResidue → (k, v2) ∈ t2.perResidue →
        (k, v1 - v2) ∈ (diffCli outdir t1 t2).dperres.2.2)
      ∧ (∀ k v1, (k, v1) ∈ t1.perResidue →
          t2.perResidue.lookup k = none →
          (k, v1) ∈ (diffCli outdir t1 t2).dperres.2.2)
      ∧ (∀ k v2, (k, v2) ∈ t2.perResidue →
          t1.perResidue.lookup k = none →
          (k, -v2) ∈ (diffCli outdir t1 t2).dperres.2.2))
    ∧ ((∀ k v1 v2, (k, v1) ∈ t1.interactions → (k, v2) ∈ t2.interactions →
        (k, v1 - v2) ∈ (diffCli outdir t1 t2).dinteractions.2.2)
      ∧ (∀ k v1, (k, v1) ∈ t1.interactions →
          t2.interactions.lookup k = none →
          (k, v1) ∈ (diffCli outdir t1 t2).dinteractions.2.2)
      ∧ (∀ k v2, (k, v2) ∈ t2.interactions →
          t1.interactions.lookup k = none →
          (k, -v2) ∈ (diffCli outdir t1 t2).dinteractions.2.2)) := by
  refine ⟨⟨rfl, rfl, rfl⟩, ?_, ⟨?_, ?_, ?_⟩, ⟨?_, ?_, ?_⟩⟩
  · intro k v1 v2 h1 h2
    refine List.mem_filterMap.mpr ⟨(k, v1), h1, ?_⟩
    simp [h2]
  · intro k v1 v2 h1 h2
    have hlook := lookup_eq_of_mem_nodup t2.perResidue k v2 hnd2 h2
    refine List.mem_append_left _ (List.mem_map.mpr ⟨(k, v1), h1, ?_⟩)
    simp [hlook]
  · intro k v1 h1 hnone
    refine List.mem_append_left _ (List.mem_map.mpr ⟨(k, v1), h1, ?_⟩)
    simp [hnone]
  · intro k v2 h2 hnone
    refine List.mem_append_right _ (List.mem_map.mpr
      ⟨(k, v2), List.mem_filter.mpr ⟨h2, by rw [hnone]; rfl⟩, ?_⟩)
    simp
  · intro k v1 v2 h1 h2
    have hlook := lookup_eq_of_mem_nodup t2.interactions k v2 hnd3 h2
    refine List.mem_append_left _ (List.mem_map.mpr ⟨(k, v1), h1, ?_⟩)
    simp [hlook]
  · intro k v1 h1 hnone
    refine List.mem_append_left _ (List.mem_map.mpr ⟨(k, v1), h1, ?_⟩)
    simp [hnone]
  · intro k v2 h2 hnone
    refine List.mem_append_right _ (List.mem_map.mpr
      ⟨(k, v2), List.mem_filter.mpr ⟨h2, by rw [hnone]; rfl⟩, ?_⟩)
    simp

/-- Witness for C5 on two small tables with overlapping and disjoint
labels. -/
theorem diffCli_spec_witness :
    (sampleParam2.perResidue.map Prod.fst).Nodup
    ∧ (sampleParam2.interactions.map Prod.fst).Nodup
    ∧ (((diffCli "d" sampleParam1 sampleParam2).dcoupling.1 =
          pathJoin "d" "dcoupling.txt"
      ∧ (diffCli "d" sampleParam1 sampleParam2).dperres.1 =
          pathJoin "d" "dperres.txt"
      ∧ (diffCli "d" sampleParam1 sampleParam2).dinteractions.1 =
          pathJoin "d" "dinteractions.txt")
    ∧ (∀ k v1 v2, (k, v1) ∈ sampleParam1.table →
        sampleParam2.table.lookup k = some v2 →
        (k, v1 - v2) ∈
          (diffCli "d" sampleParam1 sampleParam2).dcoupling.2.2)
    ∧ ((∀ k v1 v2, (k, v1) ∈ sampleParam1.perResidue →
        (k, v2) ∈ sampleParam2.perResidue →
        (k, v1 - v2) ∈ (diffCli "d" sampleParam1 sampleParam2).dperres.2.2)
      ∧ (∀ k v1, (k, v1) ∈ sampleParam1.perResidue →
          sampleParam2.perResidue.lookup k = none →
          (k, v1) ∈ (diffCli "d" sampleParam1 sampleParam2).dperres.2.2)
      ∧ (∀ k v2, (k, v2) ∈ sampleParam2.perResidue →
          sampleParam1.perResidue.lookup k = none →
          (k, -v2) ∈ (diffCli "d" sampleParam1 sampleParam2).dperres.2.2))
    ∧ ((∀ k v1 v2, (k, v1) ∈ sampleParam1.interactions →
        (k, v2) ∈ sampleParam2.interactions →
        (k, v1 - v2) ∈
          (diffCli "d" sampleParam1 sampleParam2).dinteractions.2.2)
      ∧ (∀ k v1, (k, v1) ∈ sampleParam1.interactions →
          sampleParam2.interactions.lookup k = none →
          (k, v1) ∈
            (diffCli "d" sampleParam1 sampleParam2).dinteractions.2.2)
      ∧ (∀ k v2, (k, v2) ∈ sampleParam2.interactions →
          sampleParam1.interactions.lookup k = none →
          (k, -v2) ∈
            (diffCli "d" sampleParam1 sampleParam2).dinteractions.2.2))) :=
  ⟨by decide, by decide,
   diffCli_spec "d" sampleParam1 sampleParam2 (by decide) (by decide)⟩

/-! ### C6: the `table_convert` command -/

/-- A member pair makes `lookup` succeed. -/
theorem lookup_isSome_of_mem {α β : Type} [BEq α] [LawfulBEq α]
    (l : List (α × β)) (k : α) (v : β) (h : (k, v) ∈ l) :
    (l.lookup k).isSome := by
  exact List.lookup_isSome_iff.mpr ⟨(k, v), h, by simp⟩

/-- A successful `lookup` result is a member pair. -/
theorem mem_of_lookup_some {α β : Type} [BEq α] [LawfulBEq α]
    (l : List (α × β)) (k : α) (v : β) (h : l.lookup k = some v) :
    (k, v) ∈ l := by
  obtain ⟨l₁, l₂, rfl, -⟩ := List.lookup_eq_some_iff.mp h
  simp

/-- When both name lists have the same length (the two universes read the
same coordinate file), every fluctmatch bead name has a converted name. -/
theorem convertName_isSome (fmNames cgNames : List String)
    (hlen : fmNames.length = cgNames.length) (x : String)
    (hx : x ∈ fmNames) : (convertName fmNames cgNames x).isSome := by
  rcases List.mem_iff_getElem.mp hx with ⟨i, hi, hget⟩
  have hic : i < cgNames.length := hlen ▸ hi
  have hzip : (x, cgNames.getD i "") ∈ List.zip fmNames cgNames := by
    have h1 : fmNames[i]? = some x := by
      rw [List.getElem?_eq_getElem hi, hget]
    have h2 : cgNames[i]? = some (cgNames.getD i "") := by
      rw [List.getElem?_eq_getElem hic, List.getD_eq_getElem _ _ hic]
    have hz : (List.zip fmNames cgNames)[i]? =
        some (x, cgNames.getD i "") :=
      List.getElem?_zip_eq_some.mpr ⟨h1, h2⟩
    exact List.getElem?_mem hz
  exact lookup_isSome_of_mem _ _ _
    ((List.mem_reverse).mpr hzip)

/-- A converted name is the cg atom name at a position where the
fluctmatch name list holds the looked-up name. -/
theorem convertName_position (fmNames cgNames : List String) (x y : String)
    (h : convertName fmNames cgNames x = some y) :
    ∃ i, i < fmNames.length ∧ i < cgNames.length ∧
      fmNames.getD i "" = x ∧ cgNames.getD i "" = y := by
  have hmem : (x, y) ∈ List.zip fmNames cgNames :=
    (List.mem_reverse).mp (mem_of_lookup_some _ _ _ h)
  rcases List.mem_iff_getElem.mp hmem with ⟨i, hi, hget⟩
  have hif : i < fmNames.length :=
    lt_of_lt_of_le hi (by simp [List.length_zip])
  have hic : i < cgNames.length :=
    lt_of_lt_of_le hi (by simp [List.length_zip])
  have hq : (List.zip fmNames cgNames)[i]? = some (x, y) := by
    rw [List.getElem?_eq_getElem hi, hget]
  obtain ⟨h1, h2⟩ := List.getElem?_zip_eq_some.mp hq
  refine ⟨i, hif, hic, ?_, ?_⟩
  · rw [List.getD_eq_getElem?_getD, h1]; rfl
  · rw [List.getD_eq_getElem?_getD, h2]; rfl

/-- `mapM` over `Option` succeeds pointwise. -/
theorem mapM_eq_some_map {α β : Type} (f : α → Option β) (g : α → β)
    (l : List α) (h : ∀ a ∈ l, f a = some (g a)) :
    l.mapM f = some (l.map g) := by
  induction l with
  | nil => rfl
  | cons a l ih =>
    rw [List.mapM_cons, h a (by simp), ih (fun b hb => h b (by simp [hb]))]
    rfl

/-- A row whose four lookups succeed converts to `outRowOf`. -/
theorem convertRow_eq (fmNames cgNames : List String)
    (residues : List ((String × ℤ) × String)) (row : ConvRow)
    (hI : (convertName fmNames cgNames row.I).isSome)
    (hJ : (convertName fmNames cgNames row.J).isSome)
    (hrI : (lookupResn residues (row.segidI, row.resI)).isSome)
    (hrJ : (lookupResn residues (row.segidJ, row.resJ)).isSome) :
    convertRow fmNames cgNames residues row =
      some (outRowOf fmNames cgNames residues row) := by
  rcases Option.isSome_iff_exists.mp hI with ⟨ni, hni⟩
  rcases Option.isSome_iff_exists.mp hJ with ⟨nj, hnj⟩
  rcases Option.isSome_iff_exists.mp hrI with ⟨ri, hri⟩
  rcases Option.isSome_iff_exists.mp hrJ with ⟨rj, hrj⟩
  simp [convertRow, outRowOf, hni, hnj, hri, hrj]

/-- **C6.** For every loaded constants table whose `I` and `J` entries all
occur among the fluctmatch topology's atom names (and whose residue keys
occur in the cg topology; both universes read the same coordinate file, so
the name lists have equal length), `table_convert` replaces each `I`/`J`
bead name by the cg atom name paired with it position by position, adds
residue names `resnI`/`resnJ` looked up by (segid, residue number), keeps
the remaining columns, and writes the renamed table to the output file. -/
theorem tableConvert_spec (outfile : String)
    (fmNames cgNames : List String)
    (residues : List ((String × ℤ) × String)) (rows : List ConvRow)
    (hlen : fmNames.length = cgNames.length)
    (hnames : ∀ row ∈ rows, row.I ∈ fmNames ∧ row.J ∈ fmNames)
    (hres : ∀ row ∈ rows,
      (lookupResn residues (row.segidI, row.resI)).isSome ∧
      (lookupResn residues (row.segidJ, row.resJ)).isSome) :
    ∃ out, tableConvertCli outfile fmNames cgNames residues rows =
        some (outfile, stdCfg, out)
      ∧ out.length = rows.length
      ∧ ∀ k : ℕ, k < rows.length →
          ((out.getD k noOutRow).segidI = (rows.getD k noRow).segidI
            ∧ (out.getD k noOutRow).resI = (rows.getD k noRow).resI
            ∧ (out.getD k noOutRow).segidJ = (rows.getD k noRow).segidJ
            ∧ (out.getD k noOutRow).resJ = (rows.getD k noRow).resJ
            ∧ (out.getD k noOutRow).value = (rows.getD k noRow).value)
          ∧ (∃ i, i < fmNames.length ∧ i < cgNames.length ∧
              fmNames.getD i "" = (rows.getD k noRow).I ∧
              (out.getD k noOutRow).I = cgNames.getD i "")
          ∧ (∃ j, j < fmNames.length ∧ j < cgNames.length ∧
              fmNames.getD j "" = (rows.getD k noRow).J ∧
              (out.getD k noOutRow).J = cgNames.getD j "")
          ∧ some (out.getD k noOutRow).resnI =
              lookupResn residues
                ((rows.getD k noRow).segidI, (rows.getD k noRow).resI)
          ∧ some (out.getD k noOutRow).resnJ =
              lookupResn residues
                ((rows.getD k noRow).segidJ, (rows.getD k noRow).resJ) := by
  have hconv : ∀ row ∈ rows, convertRow fmNames cgNames residues row =
      some (outRowOf fmNames cgNames residues row) := by
    intro row hrow
    exact convertRow_eq _ _ _ _
      (convertName_isSome _ _ hlen _ (hnames row hrow).1)
      (convertName_isSome _ _ hlen _ (hnames row hrow).2)
      (hres row hrow).1 (hres row hrow).2
  refine ⟨rows.map (outRowOf fmNames cgNames residues), ?_, by simp, ?_⟩
  · unfold tableConvertCli
    rw [mapM_eq_some_map _ _ _ hconv]
    rfl
  · intro k hk
    have hrowmem : rows.getD k noRow ∈ rows := by
      rw [List.getD_eq_getElem _ _ hk]
      exact List.getElem_mem hk
    have hgetout :
        (rows.map (outRowOf fmNames cgNames residues)).getD k noOutRow =
          outRowOf fmNames cgNames residues (rows.getD k noRow) :=
      getD_map _ _ noRow rows k hk
    rcases Option.isSome_iff_exists.mp
      (convertName_isSome _ _ hlen _ (hnames _ hrowmem).1) with ⟨ni, hni⟩
    rcases Option.isSome_iff_exists.mp
      (convertName_isSome _ _ hlen _ (hnames _ hrowmem).2) with ⟨nj, hnj⟩
    rcases Option.isSome_iff_exists.mp (hres _ hrowmem).1 with ⟨ri, hri⟩
    rcases Option.isSome_iff_exists.mp (hres _ hrowmem).2 with ⟨rj, hrj⟩
    rw [hgetout]
    refine ⟨⟨rfl, rfl, rfl, rfl, rfl⟩, ?_, ?_, ?_, ?_⟩
    · rcases convertName_position _ _ _ _ hni with ⟨i, h1, h2, h3, h4⟩
      refine ⟨i, h1, h2, h3, ?_⟩
      have hproj : (outRowOf fmNames cgNames residues
          (rows.getD k noRow)).I =
          (convertName fmNames cgNames (rows.getD k noRow).I).getD "" := rfl
      rw [hproj, hni, Option.getD_some]
      exact h4.symm
    · rcases convertName_position _ _ _ _ hnj with ⟨j, h1, h2, h3, h4⟩
      refine ⟨j, h1, h2, h3, ?_⟩
      have hproj : (outRowOf fmNames cgNames residues
          (rows.getD k noRow)).J =
          (convertName fmNames cgNames (rows.getD k noRow).J).getD "" := rfl
      rw [hproj, hnj, Option.getD_some]
      exact h4.symm
    · have hproj : (outRowOf fmNames cgNames residues
          (rows.getD k noRow)).resnI =
          (lookupResn residues ((rows.getD k noRow).segidI,
            (rows.getD k noRow).resI)).getD "" := rfl
      rw [hproj, hri]
      rfl
    · have hproj : (outRowOf fmNames cgNames residues
          (rows.getD k noRow)).resnJ =
          (lookupResn residues ((rows.getD k noRow).segidJ,
            (rows.getD k noRow).resJ)).getD "" := rfl
      rw [hproj, hrj]
      rfl

/-- Witness for C6 on a one-row constants table. -/
theorem tableConvert_spec_witness :
    sampleFmNames.length = sampleCgNames.length
    ∧ (∀ row ∈ sampleConvRows,
        row.I ∈ sampleFmNames ∧ row.J ∈ sampleFmNames)
    ∧ (∀ row ∈ sampleConvRows,
        (lookupResn sampleResidues (row.segidI, row.resI)).isSome ∧
        (lookupResn sampleResidues (row.segidJ, row.resJ)).isSome)
    ∧ (∃ out, tableConvertCli "kb_aa.txt" sampleFmNames sampleCgNames
          sampleResidues sampleConvRows =
        some ("kb_aa.txt", stdCfg, out)
      ∧ out.length = sampleConvRows.length
      ∧ ∀ k : ℕ, k < sampleConvRows.length →
          ((out.getD k noOutRow).segidI =
              (sampleConvRows.getD k noRow).segidI
            ∧ (out.getD k noOutRow).resI =
              (sampleConvRows.getD k noRow).resI
            ∧ (out.getD k noOutRow).segidJ =
              (sampleConvRows.getD k noRow).segidJ
            ∧ (out.getD k noOutRow).resJ =
              (sampleConvRows.getD k noRow).resJ
            ∧ (out.getD k noOutRow).value =
              (sampleConvRows.getD k noRow).value)
          ∧ (∃ i, i < sampleFmNames.length ∧ i < sampleCgNames.length ∧
              sampleFmNames.getD i "" = (sampleConvRows.getD k noRow).I ∧
              (out.getD k noOutRow).I = sampleCgNames.getD i "")
          ∧ (∃ j, j < sampleFmNames.length ∧ j < sampleCgNames.length ∧
              sampleFmNames.getD j "" = (sampleConvRows.getD k noRow).J ∧
              (out.getD k noOutRow).J = sampleCgNames.getD j "")
          ∧ some (out.getD k noOutRow).resnI =
              lookupResn sampleResidues
                ((sampleConvRows.getD k noRow).segidI,
                  (sampleConvRows.getD k noRow).resI)
          ∧ some (out.getD k noOutRow).resnJ =
              lookupResn sampleResidues
                ((sampleConvRows.getD k noRow).segidJ,
                  (sampleConvRows.getD k noRow).resJ)) :=
  ⟨by decide, by decide, by decide,
   tableConvert_spec "kb_aa.txt" sampleFmNames sampleCgNames
     sampleResidues sampleConvRows (by decide) (by decide) (by decide)⟩

/-- Witness for C3: with the binary present, one pool submission per
window; with it missing, the error is raised. -/
theorem split_missing_binary_witness :
    ¬((true = false) ∧ (true = false))
    ∧ ∃ p, (splittrajCli (if true then "GMX" else "CHARMM") true true
        "log" 1 10 4).effects =
      Effect.openLog p :: (genWindows 1 10 4).map Effect.submitPool :=
  ⟨by simp,
   (split_missing_binary (1, 2, 3) "data" "t" "x" "o" "log" "tmp" none
     1 10 4).2.2.2.2.2 true true (by simp)⟩

/-- Witness for C10 at a rejected `func` string. -/
theorem bondStatsInit_error_iff_witness :
    ("bogus" ≠ "mean" ∧ "bogus" ≠ "std" ∧ "bogus" ≠ "both")
    ∧ (∃ msg, bondStatsInit "bogus" = Except.error msg) :=
  ⟨by decide, (bondStatsInit_error_iff "bogus").1.mpr (by decide)⟩

/-! ### C7: a single serialization format -/

/-- A digit character is a digit. -/
theorem digitChar_mod_isDigit (m : ℕ) :
    (Nat.digitChar (m % 10)).isDigit = true := by
  have h : m % 10 < 10 := Nat.mod_lt _ (by norm_num)
  revert h
  generalize m % 10 = k
  intro h
  interval_cases k <;> decide

/-- **C7.** Every tabular result written by the `diff` command, the
thermodynamics aggregator and the `table_convert` command is serialized
the same way: space-separated columns, header row and index included, and
floats through `"%.4f"`, which renders exactly four (decimal-digit)
characters after the decimal point. -/
theorem serialization_format {κ₁ κ₂ κ₃ : Type}
    [BEq κ₁] [BEq κ₂] [BEq κ₃]
    (outdir outfile : String) (t1 t2 : ParamTable κ₁ κ₂ κ₃)
    (temperature : ℚ) (st : ThermoState) (t? : Option ℚ)
    (results : List (String × ThermoResult))
    (fmNames cgNames : List String)
    (residues : List ((String × ℤ) × String)) (rows : List ConvRow)
    (q : ℚ) :
    ((diffCli outdir t1 t2).dcoupling.2.1 = stdCfg
      ∧ (diffCli outdir t1 t2).dperres.2.1 = stdCfg
      ∧ (diffCli outdir t1 t2).dinteractions.2.1 = stdCfg)
    ∧ (thermoStepWrites outdir temperature st).map (fun w => w.2.1) =
        [stdCfg, stdCfg, stdCfg, stdCfg]
    ∧ ((createThermoTables outdir t? results).2).map (fun w => w.2.1) =
        List.replicate ((createThermoTables outdir t? results).2).length
          stdCfg
    ∧ ((tableConvertCli outfile fmNames cgNames residues rows).map
        (fun o => o.2.1)).getD stdCfg = stdCfg
    ∧ (stdCfg.sep = " " ∧ stdCfg.header = true ∧ stdCfg.index = true ∧
        stdCfg.floatFormat = "%.4f")
    ∧ ((∃ s, format4 q = s ++ ("." ++ frac4 (scaled4 q % 10000)))
        ∧ (frac4 (scaled4 q % 10000)).length = 4
        ∧ ((frac4 (scaled4 q % 10000)).toList).all Char.isDigit = true) := by
  refine ⟨⟨rfl, rfl, rfl⟩, rfl, ?_, ?_, ⟨rfl, rfl, rfl, rfl⟩, ?_, ?_, ?_⟩
  · have h := createThermoLoop_writes_nil outdir (t?.getD 300) results
      initThermoState
    show ((createThermoLoop outdir (t?.getD 300) initThermoState
        results).2).map (fun w => w.2.1) =
      List.replicate ((createThermoLoop outdir (t?.getD 300)
        initThermoState results).2).length stdCfg
    rw [h]
    rfl
  · unfold tableConvertCli
    cases rows.mapM (convertRow fmNames cgNames residues) <;> rfl
  · exact ⟨(if q < 0 then "-" else "") ++ toString (scaled4 q / 10000),
      by rw [format4]; rw [String.append_assoc]⟩
  · rfl
  · simp only [frac4, String.toList, List.all_cons, List.all_nil,
      digitChar_mod_isDigit, Bool.and_true, Bool.and_self]

end Fluctmatch
